import Mathlib

/-!
Shallow embedding of `fuse_core::Variable`
(src/fuse_core/include/fuse_core/variable.h).

The header declares an abstract polymorphic interface: `type()`, `uuid()`,
`size()`, `data()` (const and non-const), `print()`, `clone()` and
`localParameterization()`.  Only `type()` (demangled dynamic type name) and
`localParameterization()` (returns `nullptr`) have bodies in the header; the
remaining operations are pure virtual and every concrete variable kind lives
outside this repository.  Concrete kinds are therefore modelled from the
spec: the `Point2D` (Euclidean, timestamp metadata, two scalars) and
`Orientation3D` (quaternion, four scalars, manifold strategy with ambient
dimension 4 and tangent dimension 3) scenario kinds of spec section 8, with
name-based UUID generation namespaced per concrete kind as described in the
`Variable::uuid` doc comment and spec section 6.

Heap aliasing and allocation order, which several claims mention, are made
explicit with a small store model: a heap maps addresses to variable
instances, construction and cloning allocate fresh addresses, and writes
through the writable `data()` view mutate one address in place.
-/

set_option autoImplicit false

namespace Fuse

/-- Modelled from the spec: the opaque 128-bit-style identity key with value
equality.  `Variable::uuid` is pure virtual and `fuse_core/uuid.h` is not in
the repository; per the `Variable::uuid` doc comment and spec section 6 the
key is produced by a deterministic name-based derivation from the defining
metadata bytes, namespaced by the concrete kind's `type()` string.  The model
keeps the namespace string and the metadata encoding as the key's value. -/
structure UUID where
  namespaceTag : String
  payload : Nat
deriving DecidableEq

/-- Modelled from the spec: the concrete variable kinds of spec section 8's
scenarios (`Point2D`, a Euclidean kind, and `Orientation3D`, a quaternion
manifold kind).  The repository contains only the abstract `Variable`
interface; these stand for the derived classes implemented elsewhere. -/
inductive Kind where
  | point2d
  | orientation3d
deriving DecidableEq

/-- Modelled from the spec: `size()` per concrete kind (`Point2D` stores two
scalars; `Orientation3D` stores a quaternion, four scalars, per the
`Variable::size` doc comment's quaternion example). -/
def Kind.size : Kind → Nat
  | .point2d => 2
  | .orientation3d => 4

/-- The default `Variable::type()` body returns
`boost::core::demangle(typeid(*this).name())`, the fully qualified class name
of the dynamic type: a fixed string per concrete kind, distinct for distinct
classes. -/
def Kind.typeName : Kind → String
  | .point2d => "fuse_variables::Point2D"
  | .orientation3d => "fuse_variables::Orientation3D"

/-- A variable instance: its concrete dynamic kind, its immutable defining
metadata (spec section 8 uses a timestamp), and the contiguous scalar storage
block (C++ `double`s modelled as rationals). -/
structure Inst where
  kind : Kind
  stamp : Nat
  vals : List ℚ
deriving DecidableEq

/-- The storage contract stated in the `Variable::data` doc comments: the
contiguous data block "must contain at least Variable::size() elements". -/
def Inst.wf (v : Inst) : Prop :=
  v.kind.size ≤ v.vals.length

/-- `Variable::size()` is a property of the concrete kind. -/
def Inst.size (v : Inst) : Nat :=
  v.kind.size

/-- Default `Variable::type()`: the demangled name of the dynamic type. -/
def Inst.type (v : Inst) : String :=
  v.kind.typeName

/-- Modelled from the spec: `Variable::uuid()` is pure virtual; concrete
kinds derive the key deterministically from the defining metadata, namespaced
by the `type()` string (`Variable::uuid` doc comment, spec section 6). -/
def nameUuid (k : Kind) (stamp : Nat) : UUID :=
  ⟨k.typeName, stamp⟩

/-- `Variable::uuid()` of an instance: a function of the concrete kind and
the immutable defining metadata only. -/
def Inst.uuid (v : Inst) : UUID :=
  nameUuid v.kind v.stamp

/-- The read-only `data()` view as consumed externally: per the doc comment
"Only Variable::size() elements will be accessed externally", the first
`size()` scalars of the contiguous block. -/
def Inst.dataRead (v : Inst) : List ℚ :=
  v.vals.take v.size

/-- One store through the writable `data()` view: overwrite the scalar at
offset `i` of the contiguous block in place.  Kind and defining metadata are
untouched; external code only writes offsets below `size()`. -/
def Inst.writeData (v : Inst) (i : Nat) (x : ℚ) : Inst :=
  { v with vals := v.vals.set i x }

/-- Modelled from the spec: a Ceres-style local parameterization object
(spec section 4.2): the ambient/global dimension `n`, the tangent/local
dimension `m`, and the `Plus(x, delta)` update rule. -/
structure LocalParameterization where
  globalSize : Nat
  localSize : Nat
  plus : List ℚ → List ℚ → List ℚ

/-- Hamilton product of two quaternions stored as `[w, x, y, z]`. -/
def quatMul (p q : List ℚ) : List ℚ :=
  let pw := p.getD 0 0; let px := p.getD 1 0; let py := p.getD 2 0; let pz := p.getD 3 0
  let qw := q.getD 0 0; let qx := q.getD 1 0; let qy := q.getD 2 0; let qz := q.getD 3 0
  [pw * qw - px * qx - py * qy - pz * qz,
   pw * qx + px * qw + py * qz - pz * qy,
   pw * qy - px * qz + py * qw + pz * qx,
   pw * qz + px * qy - py * qx + pz * qw]

/-- Modelled from the spec: the quaternion manifold update (spec sections 4.2
and 8).  Mirrors the branch structure of the Ceres quaternion
parameterization `Plus`: when the tangent increment is zero the stored value
is returned unchanged; otherwise the increment is lifted to a delta
quaternion and composed with the current value (the transcendental
normalisation of the lift is abstracted by its first-order rational form;
no claim depends on the nonzero branch). -/
def quatPlus (x delta : List ℚ) : List ℚ :=
  let d0 := delta.getD 0 0
  let d1 := delta.getD 1 0
  let d2 := delta.getD 2 0
  let normSq := d0 * d0 + d1 * d1 + d2 * d2
  if 0 < normSq then quatMul [1, d0 / 2, d1 / 2, d2 / 2] x else x

/-- Modelled from the spec: the `Orientation3D` strategy object advertises
ambient dimension 4 and tangent dimension 3 (spec section 8). -/
def quaternionParameterization : LocalParameterization :=
  ⟨4, 3, quatPlus⟩

/-- The base-class default `Variable::localParameterization()` body
(variable.h lines 167-170): `return nullptr;`, for every instance, whatever
its state. -/
def localParameterizationDefault (_v : Inst) : Option LocalParameterization :=
  none

/-- Modelled from the spec: which strategy each concrete kind returns.  The
Euclidean `Point2D` kind keeps the inherited base default (null); the
quaternion `Orientation3D` kind returns its strategy object. -/
def Kind.localParameterization : Kind → Option LocalParameterization
  | .point2d => localParameterizationDefault ⟨.point2d, 0, []⟩
  | .orientation3d => some quaternionParameterization

/-- `Variable::localParameterization()` of an instance: dispatch on the
dynamic kind. -/
def Inst.localParameterization (v : Inst) : Option LocalParameterization :=
  v.kind.localParameterization

/-! ### The store model

Addresses, a heap of live instances, and an allocation counter make
allocation order, memory addresses and aliasing explicit, so that the
no-aliasing part of cloning and the purity of the observers can be stated. -/

/-- Address lookup in a heap of live instances. -/
def hlookup : List (Nat × Inst) → Nat → Option Inst
  | [], _ => none
  | (b, v) :: t, a => if b = a then some v else hlookup t a

/-- In-place update of the instance stored at one address. -/
def hwrite : List (Nat × Inst) → Nat → Nat → ℚ → List (Nat × Inst)
  | [], _, _, _ => []
  | (b, v) :: t, a, i, x =>
      if b = a then (b, v.writeData i x) :: hwrite t a i x
      else (b, v) :: hwrite t a i x

/-- A store: the next fresh address and the heap of live instances. -/
structure Store where
  next : Nat
  heap : List (Nat × Inst)

/-- Every live address was allocated, i.e. lies below the counter. -/
def Store.WF (σ : Store) : Prop :=
  ∀ p ∈ σ.heap, p.1 < σ.next

/-- The instance living at address `a`, if any. -/
def Store.lookup (σ : Store) (a : Nat) : Option Inst :=
  hlookup σ.heap a

/-- Construct a variable of kind `k` with defining metadata `m` at a fresh
address (storage zero-initialised at its kind's size). -/
def Store.construct (σ : Store) (k : Kind) (m : Nat) : Store × Nat :=
  (⟨σ.next + 1, (σ.next, ⟨k, m, List.replicate k.size 0⟩) :: σ.heap⟩, σ.next)

/-- `Variable::clone()`: `Derived::make_unique(*this)` copy-constructs the
most-derived object — same kind, same metadata, a copy of the scalar block —
into freshly allocated, independent storage. -/
def Store.clone (σ : Store) (a : Nat) : Store × Option Nat :=
  match σ.lookup a with
  | some v => (⟨σ.next + 1, (σ.next, v) :: σ.heap⟩, some σ.next)
  | none => (σ, none)

/-- A store through the writable `data()` view of the variable at `a`. -/
def Store.write (σ : Store) (a : Nat) (i : Nat) (x : ℚ) : Store :=
  ⟨σ.next, hwrite σ.heap a i x⟩

instance (v : Inst) : Decidable v.wf :=
  inferInstanceAs (Decidable (v.kind.size ≤ v.vals.length))

instance (σ : Store) : Decidable σ.WF :=
  inferInstanceAs (Decidable (∀ p ∈ σ.heap, p.1 < σ.next))

/-! ### Concrete instances and stores used by the witnesses -/

/-- A `Point2D` instance with timestamp 7. -/
def pInst : Inst :=
  ⟨.point2d, 7, [1, 2]⟩

/-- A second `Point2D` instance with timestamp 7 but other stored values. -/
def pInst2 : Inst :=
  ⟨.point2d, 7, [5, 6]⟩

/-- An `Orientation3D` instance holding the identity quaternion. -/
def qOri : Inst :=
  ⟨.orientation3d, 3, [1, 0, 0, 0]⟩

/-- A `Point2D` instance whose contiguous block holds one extra scalar, as
the `Variable::data` doc comments allow ("at least Variable::size()
elements"). -/
def overAllocated : Inst :=
  ⟨.point2d, 0, [0, 0, 0]⟩

/-- A two-variable store for the frame-property witness. -/
def σw : Store :=
  ⟨2, [(0, pInst), (1, qOri)]⟩

/-- A one-variable store for the clone witness. -/
def σc : Store :=
  ⟨1, [(0, pInst)]⟩

/-! ### Helper lemmas -/

theorem hlookup_lt {h : List (Nat × Inst)} {n a : Nat} {v : Inst}
    (hwf : ∀ p ∈ h, p.1 < n) (hl : hlookup h a = some v) : a < n := by
  induction h with
  | nil => simp [hlookup] at hl
  | cons p t ih =>
      obtain ⟨b, w⟩ := p
      by_cases hb : b = a
      · subst hb
        exact hwf (b, w) (List.mem_cons_self _ _)
      · simp only [hlookup, if_neg hb] at hl
        exact ih (fun q hq => hwf q (List.mem_cons_of_mem _ hq)) hl

theorem hlookup_hwrite_ne {h : List (Nat × Inst)} {a b i : Nat} {x : ℚ}
    (hab : a ≠ b) : hlookup (hwrite h b i x) a = hlookup h a := by
  induction h with
  | nil => rfl
  | cons p t ih =>
      obtain ⟨c, w⟩ := p
      by_cases hc : c = b
      · subst hc
        have hca : ¬ c = a := fun hca => hab hca.symm
        simp [hwrite, hlookup, hca, ih]
      · by_cases hca : c = a
        · subst hca
          simp [hwrite, hlookup, hc]
        · simp [hwrite, hlookup, hc, hca, ih]

theorem hlookup_hwrite_eq {h : List (Nat × Inst)} {a i : Nat} {x : ℚ} :
    hlookup (hwrite h a i x) a = (hlookup h a).map (fun v => v.writeData i x) := by
  induction h with
  | nil => rfl
  | cons p t ih =>
      obtain ⟨c, w⟩ := p
      by_cases hc : c = a
      · simp [hwrite, hlookup, hc]
      · simp [hwrite, hlookup, hc, ih]

theorem typeName_inj (k₁ k₂ : Kind) (h : k₁.typeName = k₂.typeName) : k₁ = k₂ := by
  cases k₁ <;> cases k₂ <;> first | rfl | (simp [Kind.typeName] at h)

theorem kind_size_pos (k : Kind) : 1 ≤ k.size := by
  cases k <;> decide

theorem writeData_kind (v : Inst) (i : Nat) (x : ℚ) :
    (v.writeData i x).kind = v.kind := rfl

/-! ### The claims -/

/-- Claim C1: identity-key determinism.  Constructing a variable of a given
kind with identical defining metadata in two arbitrary stores — whatever
their allocation counters and heap contents, so in particular at different
addresses and under different allocation orders — yields instances with
equal identity keys. -/
theorem uuid_deterministic (k : Kind) (m : Nat) (σ₁ σ₂ : Store) (v₁ v₂ : Inst)
    (h₁ : (σ₁.construct k m).1.lookup (σ₁.construct k m).2 = some v₁)
    (h₂ : (σ₂.construct k m).1.lookup (σ₂.construct k m).2 = some v₂) :
    v₁.uuid = v₂.uuid := by
  simp [Store.construct, Store.lookup, hlookup] at h₁ h₂
  subst h₁; subst h₂
  rfl

/-- Witness for C1: two independent constructions of a `Point2D` with
timestamp 7, in stores with different allocation histories, agree on the
key. -/
theorem uuid_deterministic_witness :
    Inst.uuid ⟨.point2d, 7, List.replicate 2 0⟩ = Inst.uuid ⟨.point2d, 7, List.replicate 2 0⟩ :=
  uuid_deterministic .point2d 7 ⟨5, []⟩ ⟨99, [(0, qOri)]⟩ _ _ rfl rfl

/-- Claim C2: identity-key stability within one instance.  Two calls to
`uuid()` agree, and the key is unchanged by a mutation of the stored scalars
through the writable `data()` view between the calls. -/
theorem uuid_stable (v : Inst) (i : Nat) (x : ℚ) :
    v.uuid = v.uuid ∧ (v.writeData i x).uuid = v.uuid :=
  ⟨rfl, rfl⟩

/-- Claim C5: every constructed variable has `size() ≥ 1`. -/
theorem size_at_least_one (v : Inst) : 1 ≤ v.size :=
  kind_size_pos v.kind

/-- Claim C6: size constancy.  Any sequence of writes through the writable
`data()` view leaves the value reported by `size()` unchanged. -/
theorem size_constant (v : Inst) (ws : List (Nat × ℚ)) :
    (ws.foldl (fun u p => u.writeData p.1 p.2) v).size = v.size := by
  induction ws generalizing v with
  | nil => rfl
  | cons p t ih => simpa using ih (v.writeData p.1 p.2)

/-- Claim C7: null strategy for Euclidean kinds.  The base-class default
implementation of `localParameterization()` returns null for every instance
regardless of its state; the Euclidean `Point2D` kind returns null; and the
result is a function of the concrete kind only. -/
theorem localParameterization_null_for_euclidean :
    (∀ v : Inst, localParameterizationDefault v = none)
    ∧ Kind.localParameterization Kind.point2d = none
    ∧ (∀ v₁ v₂ : Inst, v₁.kind = v₂.kind →
        v₁.localParameterization = v₂.localParameterization) :=
  ⟨fun _ => rfl, rfl, fun _ _ h => congrArg Kind.localParameterization h⟩

/-- Witness for C7: two `Point2D` instances with different stored values
receive the same (null) strategy. -/
theorem localParameterization_null_witness :
    pInst.localParameterization = pInst2.localParameterization :=
  localParameterization_null_for_euclidean.2.2 pInst pInst2 rfl

/-- Claim C8: type-name discrimination.  Instances of the same concrete kind
report identical `type()` strings; instances of distinct concrete kinds
report distinct strings. -/
theorem type_discriminates (v₁ v₂ : Inst) :
    (v₁.kind = v₂.kind → v₁.type = v₂.type)
    ∧ (v₁.kind ≠ v₂.kind → v₁.type ≠ v₂.type) :=
  ⟨fun h => congrArg Kind.typeName h,
   fun hne heq => hne (typeName_inj v₁.kind v₂.kind heq)⟩

/-- Witness for C8: two `Point2D` instances share a type string; a `Point2D`
and an `Orientation3D` do not. -/
theorem type_discriminates_witness :
    pInst.type = pInst2.type ∧ pInst.type ≠ qOri.type :=
  ⟨(type_discriminates pInst pInst2).1 rfl,
   (type_discriminates pInst qOri).2 (by decide)⟩

/-- Claim C3: clone fidelity.  Cloning the variable at address `a` yields a
new instance at a fresh address `a'` with equal identity key, equal size,
element-wise equal data, the same most-derived kind, and independent
storage: `a' ≠ a`, and any write through the clone's writable view leaves
the original's stored values untouched. -/
theorem clone_fidelity (σ σ' : Store) (a a' : Nat) (v v' : Inst) (i : Nat) (x : ℚ)
    (hwf : σ.WF) (hv : σ.lookup a = some v)
    (hclone : σ.clone a = (σ', some a'))
    (hv' : σ'.lookup a' = some v') :
    v'.uuid = v.uuid ∧ v'.size = v.size ∧ v'.dataRead = v.dataRead ∧ v'.kind = v.kind
    ∧ a' ≠ a ∧ (σ'.write a' i x).lookup a = some v := by
  have ha : a < σ.next := hlookup_lt hwf hv
  have hane : a ≠ σ.next := Nat.ne_of_lt ha
  unfold Store.clone at hclone
  rw [hv] at hclone
  have hσ' : σ' = ⟨σ.next + 1, (σ.next, v) :: σ.heap⟩ := (congrArg Prod.fst hclone).symm
  have ha' : a' = σ.next := by
    have h := congrArg Prod.snd hclone
    simpa using h.symm
  subst hσ'; subst ha'
  have hv'' : v' = v := by
    simpa [Store.lookup, hlookup] using hv'.symm
  subst hv''
  refine ⟨rfl, rfl, rfl, rfl, fun h => hane h.symm, ?_⟩
  have hna : ¬ (σ.next = a) := fun h => hane h.symm
  simp [Store.write, Store.lookup, hwrite, hlookup, hna, hlookup_hwrite_ne hane]
  exact hv

/-- Witness for C3: cloning the single `Point2D` of a one-variable store and
then writing through the clone's view leaves the original intact. -/
theorem clone_fidelity_witness :
    pInst.uuid = pInst.uuid ∧ pInst.size = pInst.size ∧ pInst.dataRead = pInst.dataRead
    ∧ pInst.kind = pInst.kind ∧ (1 : Nat) ≠ 0
    ∧ (((σc.clone 0).1).write 1 0 9).lookup 0 = some pInst :=
  clone_fidelity σc (σc.clone 0).1 0 1 pInst pInst 0 9 (by decide) rfl rfl rfl

/-- Claim C4, counterexample: the `Variable::data` doc comments require the
contiguous block to contain "at least Variable::size() elements", not
exactly `size()`: this conforming `Point2D` instance backs its view with
three scalars while `size()` is 2, so the view does not expose exactly
`size()` elements. -/
theorem data_view_exact_counterexample :
    overAllocated.wf ∧ overAllocated.vals.length ≠ overAllocated.size := by
  constructor <;> decide

/-- Claim C4 (amended): the views are backed by at least `size()` contiguous
scalars, exactly the first `size()` of which are accessed externally (the
externally accessed read view has length exactly `size()`), and a value
written at index `i < size()` through the writable view is the value read
back at index `i` from a subsequently obtained read view. -/
theorem data_view_amended (v : Inst) (i : Nat) (x : ℚ) (hwf : v.wf) (hi : i < v.size) :
    v.size ≤ v.vals.length
    ∧ v.dataRead.length = v.size
    ∧ (v.writeData i x).dataRead[i]? = some x := by
  have hlen : i < v.vals.length := lt_of_lt_of_le hi hwf
  refine ⟨hwf, ?_, ?_⟩
  · rw [Inst.dataRead, List.length_take]
    exact Nat.min_eq_left hwf
  · show ((v.vals.set i x).take (v.writeData i x).size)[i]? = some x
    have hsz : (v.writeData i x).size = v.size := rfl
    rw [hsz, List.getElem?_take, if_pos hi]
    exact List.getElem?_set_eq_of_lt x hlen

/-- Witness for C4 (amended): writing 9 at index 1 of a `Point2D` is read
back at index 1 of the read view. -/
theorem data_view_amended_witness :
    pInst.size ≤ pInst.vals.length
    ∧ pInst.dataRead.length = pInst.size
    ∧ (pInst.writeData 1 9).dataRead[1]? = some 9 :=
  data_view_amended pInst 1 9 (by decide) (by decide)

/-- Claim C9: zero-increment identity and dimension agreement.  For a
variable whose kind returns a manifold strategy, the strategy's ambient
dimension equals `size()`, and applying the strategy's update with a zero
tangent increment to the current stored values leaves them unchanged. -/
theorem manifold_zero_update (v : Inst) (lp : LocalParameterization)
    (h : v.kind.localParameterization = some lp) :
    lp.globalSize = v.size
    ∧ lp.plus v.dataRead (List.replicate lp.localSize 0) = v.dataRead := by
  obtain ⟨k, m, vals⟩ := v
  cases k with
  | point2d =>
      exact absurd h (by simp [Kind.localParameterization, localParameterizationDefault])
  | orientation3d =>
      have hlp : lp = quaternionParameterization := by
        simpa [Kind.localParameterization] using h.symm
      subst hlp
      refine ⟨rfl, ?_⟩
      show quatPlus _ (List.replicate 3 0) = _
      norm_num [quatPlus, List.replicate, List.getD]

/-- Witness for C9: the identity quaternion of an `Orientation3D` is fixed
by the zero tangent increment, and the advertised ambient dimension is its
size, 4. -/
theorem manifold_zero_update_witness :
    quaternionParameterization.globalSize = qOri.size
    ∧ quaternionParameterization.plus qOri.dataRead
        (List.replicate quaternionParameterization.localSize 0) = qOri.dataRead :=
  manifold_zero_update qOri quaternionParameterization rfl

/-- Claim C10: observer purity.  Construction and cloning leave every live
instance unchanged; a write through the writable `data()` view of address
`a` leaves every other address unchanged and replaces only the scalar block
at `a`; and a write never changes the identity key, the size or the type
string of the instance it mutates. -/
theorem only_writable_data_mutates (σ : Store) (a b : Nat) (w : Inst) (i : Nat) (x : ℚ)
    (k : Kind) (m : Nat) (hwf : σ.WF) (hb : σ.lookup b = some w) :
    (σ.construct k m).1.lookup b = some w
    ∧ (σ.clone a).1.lookup b = some w
    ∧ (b ≠ a → (σ.write a i x).lookup b = some w)
    ∧ (σ.write a i x).lookup a = (σ.lookup a).map (fun u => u.writeData i x)
    ∧ (∀ u : Inst, (u.writeData i x).uuid = u.uuid ∧ (u.writeData i x).size = u.size
        ∧ (u.writeData i x).type = u.type) := by
  have hbn : b < σ.next := hlookup_lt hwf hb
  have hbne : ¬ (σ.next = b) := fun h => Nat.ne_of_lt hbn h.symm
  refine ⟨?_, ?_, ?_, ?_, fun u => ⟨rfl, rfl, rfl⟩⟩
  · simpa [Store.construct, Store.lookup, hlookup, hbne] using hb
  · unfold Store.clone
    cases hla : σ.lookup a with
    | none => simpa using hb
    | some u => simpa [Store.lookup, hlookup, hbne] using hb
  · intro hba
    simpa [Store.write, Store.lookup, hlookup_hwrite_ne hba] using hb
  · simp [Store.write, Store.lookup, hlookup_hwrite_eq]

/-- Witness for C10: in a two-variable store, constructing, cloning and a
write to address 1 all leave address 0 untouched, the write replaces only
the block at address 1, and the written quaternion keeps its key. -/
theorem only_writable_data_mutates_witness :
    (σw.construct Kind.orientation3d 11).1.lookup 0 = some pInst
    ∧ (σw.clone 1).1.lookup 0 = some pInst
    ∧ (σw.write 1 0 3).lookup 0 = some pInst
    ∧ (σw.write 1 0 3).lookup 1 = (σw.lookup 1).map (fun u => u.writeData 0 3)
    ∧ (qOri.writeData 0 3).uuid = qOri.uuid :=
  have h := only_writable_data_mutates σw 1 0 pInst 0 3 Kind.orientation3d 11 (by decide) rfl
  ⟨h.1, h.2.1, h.2.2.1 (by decide), h.2.2.2.1, (h.2.2.2.2 qOri).1⟩

end Fuse
